import Mathlib

/-!
Verification development for the SEO analysis engine of the `seo-check`
repository, shallowly embedded from `src/server/search.js` (the first,
authoritative copy of the file) and `src/server/models/Report.js`.

Modelling conventions:
* The cheerio document tree is embedded as a flat list of elements
  (`Doc`); the selectors used by the analysis functions only look at tag
  names and attributes, so a flat list is adequate.  An element carries
  its tag, attribute list, text content (the contribution of the element
  to `$(..).text()`), and optional inner HTML (`$(el).html()`).
* Host library operations that the source calls out to (HTML parsing,
  WHATWG URL parsing and resolution, `JSON.parse`) are passed in as
  function parameters (oracles), mirroring the fact that the source
  treats them as opaque.
* Network interaction (`fetch`) is modelled by an oracle from requests
  to behaviours (either a thrown error kind or a response).  Wall-clock
  time, true concurrency and abort signals are not modelled; the
  concurrent `Promise.all` fan-out of `performSeoAnalysis` is linearised
  in the JavaScript evaluation order of the array literal, which is
  faithful for the request multiset and for the data flow between the
  synchronous (pure) checks, since those run to completion one after the
  other while only the network slots interleave.
* Machine integers do not occur: JavaScript numbers in the embedded code
  are used as small non-negative counters (ℕ), as parsed integers (ℤ)
  or, for the text/HTML ratio, as an exact rational (ℚ); `toFixed`
  rounding of the ratio (floating point formatting) is not modelled.
-/

namespace Seo

/-- Element of the flat document model: tag name, attribute list, text
content, and inner HTML (`none` when `$(el).html()` would be `null`). -/
structure Elem where
  tag : String
  attrs : List (String × String)
  text : String := ""
  inner : Option String := none
deriving Repr, DecidableEq

/-- Flat document: the list of elements of the page, in document order. -/
abbrev Doc := List Elem

/-- Attribute lookup, `$(el).attr(name)`: `none` models `undefined`. -/
def getAttr (e : Elem) (name : String) : Option String :=
  (e.attrs.find? fun p => p.1 == name).map Prod.snd

/-- Tag-name selector `$(tag)` over the flat document. -/
def selectTag (d : Doc) (t : String) : List Elem :=
  d.filter fun e => e.tag == t

/-- JavaScript string truthiness: `undefined`, `null` and `""` are falsy. -/
def truthyStr (o : Option String) : Option String :=
  match o with
  | some s => if s.isEmpty then none else some s
  | none => none

/-- JavaScript `a || b` on two nullable strings. -/
def jsOrOpt (a b : Option String) : Option String :=
  match a with
  | some s => if s.isEmpty then b else some s
  | none => b

/-- JavaScript `a || b` where the fallback is a plain string. -/
def jsOrStr (a : Option String) (b : String) : String :=
  match a with
  | some s => if s.isEmpty then b else s
  | none => b

/-- Whitespace test used for `\s` in the embedded regular expressions
and for JavaScript `String.prototype.split(/\s+/)`. -/
def isWsChar (c : Char) : Bool :=
  c == ' ' || c == '\t' || c == '\n' || c == '\r'

/-- JavaScript `String.prototype.trim`, implemented structurally over
the character list so that concrete runs reduce in the kernel. -/
def jsTrim (s : String) : String :=
  String.mk (((s.data.dropWhile isWsChar).reverse.dropWhile isWsChar).reverse)

/-- JavaScript `s.substring(0, n)` / truncation to `n` characters. -/
def strTake (s : String) (n : Nat) : String :=
  String.mk (s.data.take n)

/-- JavaScript `s.startsWith(pre)`. -/
def jsStartsWith (s pre : String) : Bool :=
  pre.data.isPrefixOf s.data

/-- JavaScript `x?.trim() || null` applied to a nullable string. -/
def jsTrimOrNull (o : Option String) : Option String :=
  match o with
  | some s => if (jsTrim s).isEmpty then none else some (jsTrim s)
  | none => none

/-- Splitting on a single separator character (used to model the
inline-style declaration parsing of cheerio `css`). -/
def splitOnCharAux (c : Char) : List Char → List Char → List (List Char)
  | [], acc => [acc.reverse]
  | x :: xs, acc =>
    if x == c then acc.reverse :: splitOnCharAux c xs []
    else splitOnCharAux c xs (x :: acc)

/-- String form of `splitOnCharAux`. -/
def splitOnChar (c : Char) (s : String) : List String :=
  (splitOnCharAux c s.data []).map String.mk

/-- JavaScript `parseInt(s, 10)`: skip leading whitespace, optional
sign, then a non-empty run of decimal digits; `none` models `NaN`. -/
def jsParseInt (s : String) : Option Int :=
  let cs := s.toList.dropWhile isWsChar
  let signAndRest : Bool × List Char :=
    match cs with
    | '-' :: rest => (true, rest)
    | '+' :: rest => (false, rest)
    | _ => (false, cs)
  let digits := signAndRest.2.takeWhile Char.isDigit
  if digits.isEmpty then none
  else
    let n : Nat := digits.foldl (fun acc c => acc * 10 + (c.toNat - 48)) 0
    some (if signAndRest.1 then -(n : Int) else (n : Int))

/-- Substring search over character lists: does `needle` occur in the
scanned list? -/
def containsSubAux (needle : List Char) : List Char → Bool
  | [] => needle.isEmpty
  | c :: rest => needle.isPrefixOf (c :: rest) || containsSubAux needle rest

/-- Substring test, JavaScript `hay.includes(needle)`. -/
def containsSubstr (hay needle : String) : Bool :=
  containsSubAux needle.data hay.data

/-! ## Images check (`analyzeImages`, search.js lines 296-350) -/

/-- Threshold below which a declared dimension marks an image as likely
decorative (`MIN_DIMENSION_FOR_CONTENT`). -/
def MIN_DIMENSION_FOR_CONTENT : Int := 50

/-- Inline-style lookup, cheerio `$(el).css(prop)`: reads the `style`
attribute and extracts the named declaration. -/
def cssProp (e : Elem) (prop : String) : Option String :=
  match getAttr e "style" with
  | none => none
  | some style =>
    let decls := (splitOnChar ';' style).filterMap fun dcl =>
      match splitOnChar ':' dcl with
      | [k, v] => some (jsTrim k, jsTrim v)
      | _ => none
    (decls.find? fun p => p.1 == prop).map Prod.snd

/-- Record pushed onto `images` for each image that has a `src`. -/
structure ImageInfo where
  src : String
  alt : Option String
  width : Option Int
  height : Option Int
  missingAlt : Bool
  presentationalAlt : Bool
  likelyDecorative : Bool
deriving Repr, DecidableEq

/-- Per-element body of the `$('img').each` loop: `none` when the image
has no truthy `src` and is skipped entirely. -/
def imageInfoOf (e : Elem) : Option ImageInfo :=
  match truthyStr (getAttr e "src") with
  | none => none
  | some src =>
    let alt := getAttr e "alt"
    let w := (jsOrOpt (getAttr e "width") (cssProp e "width")).bind jsParseInt
    let h := (jsOrOpt (getAttr e "height") (cssProp e "height")).bind jsParseInt
    let isMissingAlt := alt.isNone
    let isPresentationalAlt :=
      match alt with
      | some a => jsTrim a == ""
      | none => false
    let isLikelyDecorative :=
      (match w with
       | some n => decide (n < MIN_DIMENSION_FOR_CONTENT)
       | none => false) ||
      (match h with
       | some n => decide (n < MIN_DIMENSION_FOR_CONTENT)
       | none => false)
    some { src := src, alt := alt, width := w, height := h,
           missingAlt := isMissingAlt,
           presentationalAlt := isPresentationalAlt,
           likelyDecorative := isLikelyDecorative }

/-- Result of `analyzeImages`. -/
structure ImagesResult where
  images : List ImageInfo
  count : Nat
  missingAltCount : Nat
  presentationalAltCount : Nat
  likelyDecorativeCount : Nat
deriving Repr, DecidableEq

/-- Embedding of `analyzeImages`: walks every `img` element, keeps the
ones with a truthy `src`, and counts the distinct alt states. -/
def analyzeImages (d : Doc) : ImagesResult :=
  let infos := (selectTag d "img").filterMap imageInfoOf
  { images := infos
    count := infos.length
    missingAltCount := (infos.filter fun i => i.missingAlt).length
    presentationalAltCount := (infos.filter fun i => i.presentationalAlt).length
    likelyDecorativeCount := (infos.filter fun i => i.likelyDecorative).length }

/-! ## Schema-markup check (`checkSchemaMarkup`, search.js lines 416-449) -/

/-- Selector test for `script[type="application/ld+json"]`. -/
def isLdJsonScript (e : Elem) : Bool :=
  e.tag == "script" && getAttr e "type" == some "application/ld+json"

/-- The JSON-LD script blocks of a page, in document order. -/
def ldJsonScripts (d : Doc) : List Elem :=
  d.filter isLdJsonScript

/-- Entry of the `schemaData` array: a parsed JSON value (type `J` is
whatever the host `JSON.parse` oracle produces) or a per-block parse
error carrying a truncated content snippet. -/
inductive SchemaEntry (J : Type) where
  | parsed (j : J)
  | parseError (snippet : String)
deriving Repr, DecidableEq

/-- Per-block body of the `scripts.each` loop of `checkSchemaMarkup`:
empty or absent content contributes nothing; a parse failure is caught
and recorded as an error entry with the first 200 characters of the
block. -/
def schemaEntryOf {J : Type} (parse : String → Option J) (e : Elem) :
    Option (SchemaEntry J) :=
  match e.inner with
  | none => none
  | some content =>
    if content.isEmpty then none
    else
      match parse content with
      | some j => some (SchemaEntry.parsed j)
      | none => some (SchemaEntry.parseError (strTake content 200 ++ "..."))

/-- Accumulator step of the `scripts.each` loop: running `schemaData`
list, `hasSchema` flag and `parseErrors` counter. -/
def schemaStep {J : Type} (parse : String → Option J)
    (acc : List (SchemaEntry J) × Bool × Nat) (e : Elem) :
    List (SchemaEntry J) × Bool × Nat :=
  match e.inner with
  | none => acc
  | some content =>
    if content.isEmpty then acc
    else
      match parse content with
      | some j => (acc.1 ++ [SchemaEntry.parsed j], true, acc.2.2)
      | none =>
        (acc.1 ++ [SchemaEntry.parseError (strTake content 200 ++ "...")],
         acc.2.1, acc.2.2 + 1)

/-- Script block with non-empty content (counted by `jsonLdCount`
whether or not it parses). -/
def hasNonemptyContent (e : Elem) : Bool :=
  match e.inner with
  | some c => !c.isEmpty
  | none => false

/-- Non-empty block that the JSON oracle parses successfully. -/
def blockParses {J : Type} (parse : String → Option J) (e : Elem) : Bool :=
  match e.inner with
  | some c => !c.isEmpty && (parse c).isSome
  | none => false

/-- Non-empty block on which the JSON oracle fails (counted by
`jsonLdParseErrors`). -/
def blockFailsParse {J : Type} (parse : String → Option J) (e : Elem) : Bool :=
  match e.inner with
  | some c => !c.isEmpty && (parse c).isNone
  | none => false

/-- Result of `checkSchemaMarkup`. -/
structure SchemaResult (J : Type) where
  hasSchema : Bool
  jsonLdCount : Nat
  jsonLdParseErrors : Nat
  hasMicrodata : Bool
  data : List (SchemaEntry J)
deriving Repr, DecidableEq

/-- Embedding of `checkSchemaMarkup`: folds the per-block loop over the
JSON-LD script blocks, then checks for microdata (`[itemscope]`). -/
def checkSchemaMarkup {J : Type} (parse : String → Option J) (d : Doc) :
    SchemaResult J :=
  let scripts := ldJsonScripts d
  let folded := scripts.foldl (schemaStep parse) ([], false, 0)
  let hasMicrodata := d.any fun e => (getAttr e "itemscope").isSome
  { hasSchema := folded.2.1 || hasMicrodata
    jsonLdCount := folded.1.length
    jsonLdParseErrors := folded.2.2
    hasMicrodata := hasMicrodata
    data := folded.1 }

/-- The fold of the `scripts.each` loop appends exactly the per-block
entries, ors in whether any block parsed, and adds the number of
failing blocks. -/
theorem schemaStep_foldl {J : Type} (parse : String → Option J)
    (l : List Elem) (acc : List (SchemaEntry J)) (b : Bool) (n : Nat) :
    l.foldl (schemaStep parse) (acc, b, n) =
      (acc ++ l.filterMap (schemaEntryOf parse),
       b || l.any (blockParses parse),
       n + l.countP (blockFailsParse parse)) := by
  induction l generalizing acc b n with
  | nil => simp
  | cons e rest ih =>
    rcases e with ⟨tag, attrs, text, inner⟩
    cases inner with
    | none =>
      simp [List.foldl, schemaStep, schemaEntryOf, List.filterMap_cons,
        List.any_cons, blockParses, List.countP_cons, blockFailsParse, ih]
    | some c =>
      by_cases hc : c.isEmpty
      · simp [List.foldl, schemaStep, schemaEntryOf, hc,
          List.filterMap_cons, List.any_cons, blockParses,
          List.countP_cons, blockFailsParse, ih]
      · cases hp : parse c with
        | some j =>
          simp [List.foldl, schemaStep, schemaEntryOf, hc, hp,
            List.filterMap_cons, List.any_cons, blockParses,
            List.countP_cons, blockFailsParse, ih, Option.isSome]
        | none =>
          simp [List.foldl, schemaStep, schemaEntryOf, hc, hp,
            List.filterMap_cons, List.any_cons, blockParses,
            List.countP_cons, blockFailsParse, ih, Option.isNone,
            Nat.add_comm, Nat.add_assoc, Nat.add_left_comm]

/-- The `data` array of `checkSchemaMarkup` is the independent
per-block image of the script list. -/
theorem checkSchemaMarkup_data {J : Type} (parse : String → Option J)
    (d : Doc) :
    (checkSchemaMarkup parse d).data =
      (ldJsonScripts d).filterMap (schemaEntryOf parse) := by
  simp [checkSchemaMarkup, schemaStep_foldl]

/-- The parse-error counter of `checkSchemaMarkup` counts exactly the
non-empty blocks on which the JSON oracle fails. -/
theorem checkSchemaMarkup_errors {J : Type} (parse : String → Option J)
    (d : Doc) :
    (checkSchemaMarkup parse d).jsonLdParseErrors =
      (ldJsonScripts d).countP (blockFailsParse parse) := by
  simp [checkSchemaMarkup, schemaStep_foldl]

/-- A block contributes an entry to `data` exactly when its content is
non-empty. -/
theorem schemaEntryOf_isSome {J : Type} (parse : String → Option J)
    (e : Elem) :
    (schemaEntryOf parse e).isSome = hasNonemptyContent e := by
  rcases e with ⟨tag, attrs, text, inner⟩
  cases inner with
  | none => simp [schemaEntryOf, hasNonemptyContent]
  | some c =>
    by_cases hc : c.isEmpty
    · simp [schemaEntryOf, hasNonemptyContent, hc]
    · cases hp : parse c with
      | some j => simp [schemaEntryOf, hasNonemptyContent, hc, hp]
      | none => simp [schemaEntryOf, hasNonemptyContent, hc, hp]

/-- Entry count of the per-block image equals the number of non-empty
blocks. -/
theorem length_filterMap_schemaEntryOf {J : Type}
    (parse : String → Option J) (l : List Elem) :
    (l.filterMap (schemaEntryOf parse)).length =
      l.countP hasNonemptyContent := by
  induction l with
  | nil => simp
  | cons e rest ih =>
    rw [List.filterMap_cons, List.countP_cons]
    cases he : schemaEntryOf parse e with
    | none =>
      have : hasNonemptyContent e = false := by
        rw [← schemaEntryOf_isSome parse e, he]; rfl
      simp [this, ih]
    | some v =>
      have : hasNonemptyContent e = true := by
        rw [← schemaEntryOf_isSome parse e, he]; rfl
      simp [this, ih]

/-- Non-empty blocks split into the parsing ones and the failing ones. -/
theorem countP_nonempty_split {J : Type} (parse : String → Option J)
    (l : List Elem) :
    l.countP hasNonemptyContent =
      l.countP (blockParses parse) + l.countP (blockFailsParse parse) := by
  induction l with
  | nil => simp
  | cons e rest ih =>
    rw [List.countP_cons, List.countP_cons, List.countP_cons]
    rcases e with ⟨tag, attrs, text, inner⟩
    cases inner with
    | none => simpa [hasNonemptyContent, blockParses, blockFailsParse] using ih
    | some c =>
      by_cases hc : c.isEmpty
      · simpa [hasNonemptyContent, blockParses, blockFailsParse, hc] using ih
      · cases hp : parse c with
        | some j =>
          simp [hasNonemptyContent, blockParses, blockFailsParse, hc, hp, ih]
          omega
        | none =>
          simp [hasNonemptyContent, blockParses, blockFailsParse, hc, hp, ih]
          omega

/-- Helper for claim C9: an image recorded with a missing `alt` is
never also recorded as presentational. -/
theorem imageInfoOf_missing_not_presentational (e : Elem)
    (info : ImageInfo) (h : imageInfoOf e = some info)
    (hm : info.missingAlt = true) : info.presentationalAlt = false := by
  unfold imageInfoOf at h
  cases htr : truthyStr (getAttr e "src") with
  | none => rw [htr] at h; cases h
  | some src =>
    rw [htr] at h
    simp only [Option.some.injEq] at h
    subst h
    cases halt : getAttr e "alt" with
    | none => simp [halt]
    | some a => simp [halt] at hm

/-- Page of testable-properties Scenario C: one image with no `alt`
attribute and one with `alt=""`. -/
def scenarioCDoc : Doc :=
  [ { tag := "img", attrs := [("src", "a.png")] },
    { tag := "img", attrs := [("src", "b.png"), ("alt", "")] } ]

/-- Demo JSON oracle used by the concrete schema-markup runs: accepts
exactly the string "ok". -/
def parseDemo : String → Option Unit :=
  fun s => if s == "ok" then some () else none

/-- A JSON-LD block the demo oracle parses. -/
def goodBlock : Elem :=
  { tag := "script", attrs := [("type", "application/ld+json")],
    inner := some "ok" }

/-- A JSON-LD block the demo oracle rejects. -/
def badBlock : Elem :=
  { tag := "script", attrs := [("type", "application/ld+json")],
    inner := some "not json" }

/-- C8: the schema-markup check handles every `application/ld+json`
block independently: a block with invalid JSON is recorded as a
per-block parse error carrying a truncated content snippet, and the
entries contributed by all other blocks, before and after it, are
exactly what they would be on their own. -/
theorem c8_schema_blocks_independent {J : Type}
    (parse : String → Option J) (d1 d2 : Doc) (e : Elem) (c : String)
    (hscript : isLdJsonScript e = true) (hin : e.inner = some c)
    (hne : c.isEmpty = false) (hbad : parse c = none) :
    (checkSchemaMarkup parse (d1 ++ e :: d2)).data =
      (checkSchemaMarkup parse d1).data ++
        SchemaEntry.parseError (strTake c 200 ++ "...") ::
          (checkSchemaMarkup parse d2).data := by
  rw [checkSchemaMarkup_data, checkSchemaMarkup_data, checkSchemaMarkup_data]
  unfold ldJsonScripts
  rw [List.filter_append, List.filter_cons, List.filterMap_append]
  simp only [hscript, if_pos]
  rw [List.filterMap_cons]
  simp [schemaEntryOf, hin, hne, hbad]

/-- Witness for C8: on a page with a valid block, then a malformed
block, then another valid block, the malformed one yields one error
entry and both valid ones are still parsed and included. -/
theorem c8_schema_blocks_independent_witness :
    (checkSchemaMarkup parseDemo [goodBlock, badBlock, goodBlock]).data =
      [SchemaEntry.parsed (),
       SchemaEntry.parseError (strTake "not json" 200 ++ "..."),
       SchemaEntry.parsed ()] := by
  have h := c8_schema_blocks_independent parseDemo [goodBlock] [goodBlock]
    badBlock "not json" (by decide) rfl (by decide) (by decide)
  simpa using h

/-- C9: among images that have a `src`, a missing `alt` attribute and a
present-but-empty `alt` are distinct, mutually exclusive states; on the
Scenario C page (one `img` with no `alt`, one with `alt=""`) the counts
are one each. -/
theorem c9_images_alt_states :
    (analyzeImages scenarioCDoc).missingAltCount = 1 ∧
    (analyzeImages scenarioCDoc).presentationalAltCount = 1 ∧
    ∀ d : Doc, ∀ info ∈ (analyzeImages d).images,
      info.missingAlt = true → info.presentationalAlt = false := by
  refine ⟨by decide, by decide, ?_⟩
  intro d info hmem hmiss
  simp only [analyzeImages] at hmem
  obtain ⟨e, -, he⟩ := List.mem_filterMap.mp hmem
  exact imageInfoOf_missing_not_presentational e info he hmiss

/-- The record `analyzeImages` produces for `<img src="a.png">`. -/
def imageA : ImageInfo :=
  { src := "a.png", alt := none, width := none, height := none,
    missingAlt := true, presentationalAlt := false,
    likelyDecorative := false }

/-- Witness for C9 at the Scenario C page and its first image. -/
theorem c9_images_alt_states_witness :
    imageA ∈ (analyzeImages scenarioCDoc).images ∧
    imageA.missingAlt = true ∧ imageA.presentationalAlt = false :=
  ⟨by decide, by decide,
    c9_images_alt_states.2.2 scenarioCDoc imageA (by decide) (by decide)⟩

/-- C10: `jsonLdCount` counts every JSON-LD block with non-empty
content whether or not it parsed, each malformed block contributes one
entry to `data` (so `data` has `jsonLdCount` entries), empty blocks are
excluded from all three, and `jsonLdCount - jsonLdParseErrors` is the
number of successfully parsed blocks. -/
theorem c10_jsonld_count_accounting {J : Type}
    (parse : String → Option J) (d : Doc) :
    (checkSchemaMarkup parse d).jsonLdCount =
      (ldJsonScripts d).countP hasNonemptyContent ∧
    (checkSchemaMarkup parse d).jsonLdParseErrors =
      (ldJsonScripts d).countP (blockFailsParse parse) ∧
    (checkSchemaMarkup parse d).data =
      (ldJsonScripts d).filterMap (schemaEntryOf parse) ∧
    (checkSchemaMarkup parse d).data.length =
      (checkSchemaMarkup parse d).jsonLdCount ∧
    (checkSchemaMarkup parse d).jsonLdCount -
        (checkSchemaMarkup parse d).jsonLdParseErrors =
      (ldJsonScripts d).countP (blockParses parse) := by
  refine ⟨?_, checkSchemaMarkup_errors parse d, checkSchemaMarkup_data parse d,
    ?_, ?_⟩
  · simp [checkSchemaMarkup, schemaStep_foldl, length_filterMap_schemaEntryOf]
  · simp [checkSchemaMarkup, schemaStep_foldl]
  · rw [checkSchemaMarkup_errors parse d]
    have h1 : (checkSchemaMarkup parse d).jsonLdCount =
        (ldJsonScripts d).countP hasNonemptyContent := by
      simp [checkSchemaMarkup, schemaStep_foldl, length_filterMap_schemaEntryOf]
    rw [h1, countP_nonempty_split parse]
    omega

/-! ## Fetcher (`fetchAndParseUrl`, search.js lines 32-104) -/

/-- Size cap for fetched content (`MAX_CONTENT_SIZE`): 5 MB. -/
def MAX_CONTENT_SIZE : Nat := 5 * 1024 * 1024

/-- Downloaded body: an opaque byte buffer. `byteLength` models
`buffer.byteLength` and `toStr` the UTF-8 decoding
(`buffer.toString('utf8')`, respectively `response.text()`); no embedded
function needs the relation between the two, so they stay independent
fields of the oracle-provided response. -/
structure Buffer where
  byteLength : Nat
  toStr : String
deriving Repr, DecidableEq

/-- Error kinds thrown by the host `fetch`: the timeout abort, the
node-fetch `max-size` error from the `size` option, a DNS failure
(`ENOTFOUND` / `EAI_AGAIN`), or any other transport error. -/
inductive FetchErrorKind where
  | abort
  | maxSize (msg : String)
  | enotfound (msg : String)
  | other (msg : String)
deriving Repr, DecidableEq

/-- The `error.message` of a thrown fetch error. -/
def kindMessage : FetchErrorKind → String
  | .abort => "The operation was aborted"
  | .maxSize m => m
  | .enotfound m => m
  | .other m => m

/-- Response delivered by the host `fetch` after following redirects:
`url` is `response.url`, the final resolved location. -/
structure HttpResponse where
  ok : Bool
  status : Nat
  contentType : Option String
  contentLength : Option String
  body : Buffer
  url : String
deriving Repr, DecidableEq

/-- Behaviour of one `fetch` call: either throws or responds. -/
inductive FetchBehavior where
  | throws (k : FetchErrorKind)
  | responds (r : HttpResponse)
deriving Repr, DecidableEq

/-- One network request: HTTP method and URL. -/
structure Req where
  method : String
  url : String
deriving Repr, DecidableEq

/-- Deterministic network oracle. -/
abbrev Net := Req → FetchBehavior

/-- Scheme normalization: prepend `http://` when the input starts with
neither `http://` nor `https://` (search.js lines 38-42; the same three
lines are inlined again at lines 465-467 and 585-589). -/
def ensureProtocol (url : String) : String :=
  if !(jsStartsWith url "http://") && !(jsStartsWith url "https://") then
    "http://" ++ url
  else url

/-- JS test `contentType && contentType.includes('text/html')` (with
the source's negated form covering a missing header). -/
def contentTypeIsHtml (ct : Option String) : Bool :=
  match ct with
  | some s => !s.isEmpty && containsSubstr s "text/html"
  | none => false

/-- The string interpolated for the content type in the error message:
`contentType || 'Not specified'`. -/
def contentTypeShown (ct : Option String) : String :=
  match ct with
  | some s => if s.isEmpty then "Not specified" else s
  | none => "Not specified"

/-- JS test `contentLength && parseInt(contentLength, 10) >
MAX_CONTENT_SIZE` on the declared header. -/
def declaredLengthExceeds (cl : Option String) : Bool :=
  match cl with
  | some s =>
    if s.isEmpty then false
    else
      match jsParseInt s with
      | some n => decide ((MAX_CONTENT_SIZE : Int) < n)
      | none => false
  | none => false

/-- Outcome of `fetchAndParseUrl`: the success record `{html, $,
finalUrl, status}` or the error record `{error, status}`. -/
inductive FetchOutcome where
  | success (html : String) (doc : Doc) (finalUrl : String) (status : Nat)
  | failure (error : String) (status : Nat)
deriving Repr, DecidableEq

/-- Embedding of `fetchAndParseUrl`: normalizes the scheme, issues the
page request, and applies the response checks in source order — HTTP
status, content type, declared `Content-Length` versus the cap, then
the actually-received byte count versus the cap. `parseHtml` is the
host HTML parser (`cheerio.load`). -/
def fetchAndParseUrl (parseHtml : String → Doc) (net : Net)
    (url : String) : FetchOutcome :=
  let fetchUrl := ensureProtocol url
  match net ⟨"GET", fetchUrl⟩ with
  | .throws .abort => .failure "Request timed out after 15 seconds" 408
  | .throws (.maxSize _) => .failure "Content exceeds size limit of 5 MB" 413
  | .throws (.enotfound _) =>
    .failure ("Could not resolve domain name: " ++ url) 404
  | .throws (.other m) => .failure ("Failed to fetch URL: " ++ m) 500
  | .responds r =>
    if !r.ok then
      .failure ("HTTP error! Status: " ++ toString r.status) r.status
    else if !(contentTypeIsHtml r.contentType) then
      .failure ("Invalid content type: " ++ contentTypeShown r.contentType ++
        ". Expected text/html.") r.status
    else if declaredLengthExceeds r.contentLength then
      .failure "Declared content length exceeds size limit of 5 MB" 413
    else if MAX_CONTENT_SIZE < r.body.byteLength then
      .failure "Downloaded content exceeds size limit of 5 MB" 413
    else
      .success r.body.toStr (parseHtml r.body.toStr) r.url r.status

/-- ContentTooLarge outcomes: a fetch failure with HTTP status 413. -/
def isContentTooLarge : FetchOutcome → Bool
  | .failure _ 413 => true
  | _ => false

/-- C6: for a response that passes the status and content-type gates,
a body whose received byte count exceeds the 5 MB cap yields
ContentTooLarge regardless of the declared `Content-Length` (absent,
smaller, or lying), and, independently, a declared `Content-Length`
exceeding the cap also yields ContentTooLarge. -/
theorem c6_size_cap_on_received_bytes (parseHtml : String → Doc)
    (net : Net) (url : String) (r : HttpResponse)
    (hnet : net ⟨"GET", ensureProtocol url⟩ = .responds r)
    (hok : r.ok = true) (hct : contentTypeIsHtml r.contentType = true) :
    (MAX_CONTENT_SIZE < r.body.byteLength →
      isContentTooLarge (fetchAndParseUrl parseHtml net url) = true) ∧
    (declaredLengthExceeds r.contentLength = true →
      fetchAndParseUrl parseHtml net url =
        .failure "Declared content length exceeds size limit of 5 MB" 413) := by
  constructor
  · intro hbig
    by_cases hd : declaredLengthExceeds r.contentLength
    · simp [fetchAndParseUrl, hnet, hok, hct, hd, isContentTooLarge]
    · simp [fetchAndParseUrl, hnet, hok, hct, hd, hbig, isContentTooLarge]
  · intro hd
    simp [fetchAndParseUrl, hnet, hok, hct, hd]

/-- Response whose body exceeds the cap while declaring no
`Content-Length` at all. -/
def bigBodyResponse : HttpResponse :=
  { ok := true, status := 200, contentType := some "text/html",
    contentLength := none,
    body := { byteLength := MAX_CONTENT_SIZE + 1, toStr := "" },
    url := "http://big.example/" }

/-- Network oracle always serving the over-sized body. -/
def netBigBody : Net := fun _ => .responds bigBodyResponse

/-- Witness for C6: the 5 MB + 1 byte body with no declared length is
rejected as ContentTooLarge. -/
theorem c6_size_cap_on_received_bytes_witness :
    isContentTooLarge
      (fetchAndParseUrl (fun _ => []) netBigBody "http://big.example") = true :=
  (c6_size_cap_on_received_bytes (fun _ => []) netBigBody
    "http://big.example" bigBodyResponse rfl rfl (by decide)).1 (by decide)

/-! ## Robots check (`checkRobotsTxt`, search.js lines 111-144) -/

/-- Literal matcher: consume `lit` from the front of the scanned list. -/
def matchLit : List Char → List Char → Option (List Char)
  | [], cs => some cs
  | _ :: _, [] => none
  | l :: ls, c :: cs => if c == l then matchLit ls cs else none

/-- Case-insensitive literal matcher (the literal is lowercase). -/
def matchLitCI : List Char → List Char → Option (List Char)
  | [], cs => some cs
  | _ :: _, [] => none
  | l :: ls, c :: cs => if c.toLower == l then matchLitCI ls cs else none

/-- Greedy `\s*`. -/
def skipWs (cs : List Char) : List Char := cs.dropWhile isWsChar

/-- Match of `/User-agent:\s*\*\s*Disallow:\s*\/$/m` starting at the
given position (`$` in multiline mode: before a newline or at the
end). -/
def disallowAllAt (cs : List Char) : Bool :=
  match matchLit "User-agent:".data cs with
  | none => false
  | some cs1 =>
    match skipWs cs1 with
    | '*' :: cs2 =>
      match matchLit "Disallow:".data (skipWs cs2) with
      | none => false
      | some cs3 =>
        match skipWs cs3 with
        | '/' :: rest =>
          match rest with
          | [] => true
          | c :: _ => c == '\n'
        | _ => false
    | _ => false

/-- Does the predicate hold at any suffix of the list? -/
def anySuffix (p : List Char → Bool) : List Char → Bool
  | [] => p []
  | c :: cs => p (c :: cs) || anySuffix p cs

/-- Regex test `/User-agent:\s*\*\s*Disallow:\s*\/$/m.test(content)`:
the pattern matches at some position of the content. -/
def disallowedAllTest (content : String) : Bool :=
  anySuffix disallowAllAt content.data

/-- Result of `checkRobotsTxt`: fields absent from a given return
object are `none`. -/
structure RobotsResult where
  exists_ : Bool
  content : Option String := none
  disallowedAll : Option Bool := none
  error : Option String := none
deriving Repr, DecidableEq

/-- URL of the robots resource, `new URL('/robots.txt', origin)`. -/
def robotsUrlOf (origin : String) : String := origin ++ "/robots.txt"

/-- Embedding of `checkRobotsTxt`: one GET of `{origin}/robots.txt`;
success truncates the stored content to 5000 characters and runs the
blanket-disallow heuristic; 404 is benign; other failures carry a
diagnostic. Also returns the list of requests issued. -/
def checkRobotsTxt (net : Net) (origin : String) :
    RobotsResult × List Req :=
  let robotsReq : Req := ⟨"GET", robotsUrlOf origin⟩
  match net robotsReq with
  | .throws .abort =>
    ({ exists_ := false, error := some "robots.txt check timed out" },
     [robotsReq])
  | .throws k =>
    ({ exists_ := false,
       error := some ("Error checking robots.txt: " ++ kindMessage k) },
     [robotsReq])
  | .responds r =>
    if r.ok then
      ({ exists_ := true, content := some (strTake r.body.toStr 5000),
         disallowedAll := some (disallowedAllTest r.body.toStr) },
       [robotsReq])
    else if r.status == 404 then
      ({ exists_ := false }, [robotsReq])
    else
      ({ exists_ := false,
         error := some ("robots.txt check failed with status: " ++
           toString r.status) },
       [robotsReq])

/-! ## Sitemap check (`checkSitemap`, search.js lines 152-227) -/

/-- Captures of `content.matchAll(/Sitemap:\s*(.*)/gi)` (with the
JS-truthy filter `if (match[1])`), scanning left to right without
overlap: after a case-insensitive `sitemap:`, `\s*` greedily skips
whitespace (newlines included) and `(.*)` captures to the end of the
line. Fuel is the remaining length; every step consumes at least one
character, so `length + 1` is always enough. -/
def extractDirectivesAux : Nat → List Char → List String
  | 0, _ => []
  | _ + 1, [] => []
  | fuel + 1, c :: cs =>
    match matchLitCI "sitemap:".data (c :: cs) with
    | some rest =>
      let afterWs := skipWs rest
      let cap := afterWs.takeWhile fun ch => !(ch == '\n' || ch == '\r')
      let after := afterWs.drop cap.length
      (if cap.isEmpty then [] else [String.mk cap]) ++
        extractDirectivesAux fuel after
    | none => extractDirectivesAux fuel cs

/-- All `Sitemap:` directive values found in a robots content. -/
def extractSitemapDirectives (content : String) : List String :=
  extractDirectivesAux (content.data.length + 1) content.data

/-- JavaScript `Set` insertion: append the element unless present. -/
def addUnique (l : List String) (x : String) : List String :=
  if l.contains x then l else l ++ [x]

/-- The candidate URL set of `checkSitemap`, in `Set` insertion order:
first the well-known `/sitemap.xml` and `/sitemap_index.xml`, then each
`Sitemap:` directive value from the robots content, trimmed and
resolved against the origin (`resolve` is the host `new URL(rel, base)`
returning `none` when the constructor throws). -/
def sitemapCandidates (resolve : String → String → Option String)
    (origin : String) (robots : RobotsResult) : List String :=
  let base := addUnique (addUnique [] (origin ++ "/sitemap.xml"))
    (origin ++ "/sitemap_index.xml")
  match truthyStr robots.content with
  | some content =>
    if robots.exists_ then
      (extractSitemapDirectives content).foldl
        (fun acc dir =>
          match resolve (jsTrim dir) origin with
          | some u => addUnique acc u
          | none => acc)
        base
    else base
  | none => base

/-- JS test `contentType && (contentType.includes('xml') ||
contentType.includes('text'))` on a sitemap probe response. -/
def sitemapContentTypeOk (ct : Option String) : Bool :=
  match ct with
  | some s => !s.isEmpty && (containsSubstr s "xml" || containsSubstr s "text")
  | none => false

/-- Result of `checkSitemap`. -/
structure SitemapResult where
  exists_ : Bool
  url : Option String := none
  error : Option String := none
deriving Repr, DecidableEq

/-- The probe loop of `checkSitemap`: for each candidate, HEAD first;
on 405/501 retry the same candidate with GET; the first success with an
XML/text content type wins; a success with another content type, any
other failure, or a thrown error just moves on to the next candidate. -/
def probeSitemapUrls (net : Net) : List String → SitemapResult × List Req
  | [] =>
    ({ exists_ := false,
       error := some "Sitemap not found in common locations or robots.txt" },
     [])
  | u :: rest =>
    let headReq : Req := ⟨"HEAD", u⟩
    match net headReq with
    | .throws _ =>
      ((probeSitemapUrls net rest).1,
       headReq :: (probeSitemapUrls net rest).2)
    | .responds r =>
      if !r.ok && (r.status == 405 || r.status == 501) then
        let getReq : Req := ⟨"GET", u⟩
        match net getReq with
        | .throws _ =>
          ((probeSitemapUrls net rest).1,
           headReq :: getReq :: (probeSitemapUrls net rest).2)
        | .responds r2 =>
          if r2.ok && sitemapContentTypeOk r2.contentType then
            ({ exists_ := true, url := some u }, [headReq, getReq])
          else
            ((probeSitemapUrls net rest).1,
             headReq :: getReq :: (probeSitemapUrls net rest).2)
      else
        if r.ok && sitemapContentTypeOk r.contentType then
          ({ exists_ := true, url := some u }, [headReq])
        else
          ((probeSitemapUrls net rest).1,
           headReq :: (probeSitemapUrls net rest).2)

/-- Embedding of `checkSitemap`: probe the candidate set built from the
well-known paths and the robots `Sitemap:` directives. -/
def checkSitemap (resolve : String → String → Option String) (net : Net)
    (origin : String) (robots : RobotsResult) : SitemapResult × List Req :=
  probeSitemapUrls net (sitemapCandidates resolve origin robots)

/-- The candidate list always starts with the well-known
`{origin}/sitemap.xml`. -/
theorem sitemapCandidates_head (resolve : String → String → Option String)
    (origin : String) (robots : RobotsResult) :
    ∃ t, sitemapCandidates resolve origin robots =
      (origin ++ "/sitemap.xml") :: t := by
  have hstep : ∀ (x : String) (l : List String) (d : String),
      ∃ l2, (match resolve (jsTrim d) origin with
        | some u => addUnique (x :: l) u
        | none => x :: l) = x :: l2 := by
    intro x l d
    cases resolve (jsTrim d) origin with
    | none => exact ⟨l, rfl⟩
    | some u =>
      show ∃ l2, addUnique (x :: l) u = x :: l2
      unfold addUnique
      by_cases hc : (x :: l).contains u
      · rw [if_pos hc]; exact ⟨l, rfl⟩
      · rw [if_neg hc]; exact ⟨l ++ [u], by simp⟩
  have hfold : ∀ (ds : List String) (x : String) (l : List String),
      ∃ t, ds.foldl
        (fun acc dir =>
          match resolve (jsTrim dir) origin with
          | some u => addUnique acc u
          | none => acc) (x :: l) = x :: t := by
    intro ds
    induction ds with
    | nil => intro x l; exact ⟨l, rfl⟩
    | cons d rest ih =>
      intro x l
      obtain ⟨l2, hl2⟩ := hstep x l d
      simp only [List.foldl_cons]
      rw [hl2]
      exact ih x l2
  have hone : addUnique [] (origin ++ "/sitemap.xml") =
      [origin ++ "/sitemap.xml"] := rfl
  have hbase : ∃ l0, addUnique (addUnique [] (origin ++ "/sitemap.xml"))
      (origin ++ "/sitemap_index.xml") = (origin ++ "/sitemap.xml") :: l0 := by
    rw [hone]
    unfold addUnique
    by_cases hc :
        [origin ++ "/sitemap.xml"].contains (origin ++ "/sitemap_index.xml")
    · rw [if_pos hc]; exact ⟨[], rfl⟩
    · rw [if_neg hc]; exact ⟨[origin ++ "/sitemap_index.xml"], rfl⟩
  obtain ⟨l0, hl0⟩ := hbase
  unfold sitemapCandidates
  rw [hl0]
  cases truthyStr robots.content with
  | none => exact ⟨l0, rfl⟩
  | some content =>
    by_cases he : robots.exists_
    · simp only [he, if_pos]
      exact hfold (extractSitemapDirectives content) _ l0
    · simp only [he]
      exact ⟨l0, by simp⟩

/-- The probe loop always issues the HEAD of the first candidate as its
first request. -/
theorem probeSitemapUrls_head (net : Net) (u : String)
    (rest : List String) :
    ∃ t, (probeSitemapUrls net (u :: rest)).2 = Req.mk "HEAD" u :: t := by
  cases h : net ⟨"HEAD", u⟩ with
  | throws k =>
    exact ⟨(probeSitemapUrls net rest).2, by simp [probeSitemapUrls, h]⟩
  | responds r =>
    cases h1 : !r.ok && (r.status == 405 || r.status == 501) with
    | true =>
      cases h2 : net ⟨"GET", u⟩ with
      | throws k =>
        exact ⟨Req.mk "GET" u :: (probeSitemapUrls net rest).2,
          by simp [probeSitemapUrls, h, h1, h2]⟩
      | responds r2 =>
        cases h3 : r2.ok && sitemapContentTypeOk r2.contentType with
        | true =>
          exact ⟨[Req.mk "GET" u],
            by simp [probeSitemapUrls, h, h1, h2, h3]⟩
        | false =>
          exact ⟨Req.mk "GET" u :: (probeSitemapUrls net rest).2,
            by simp [probeSitemapUrls, h, h1, h2, h3]⟩
    | false =>
      cases h3 : r.ok && sitemapContentTypeOk r.contentType with
      | true =>
        exact ⟨[], by simp [probeSitemapUrls, h, h1, h3]⟩
      | false =>
        exact ⟨(probeSitemapUrls net rest).2,
          by simp [probeSitemapUrls, h, h1, h3]⟩

/-- C3 (amended): the sitemap check always probes the well-known
`{origin}/sitemap.xml` first; URLs taken from robots `Sitemap:`
directives are appended to the candidate set after the well-known
paths and are therefore only probed later — the reverse of the claimed
priority. -/
theorem c3_amended_wellknown_probed_first
    (resolve : String → String → Option String) (net : Net)
    (origin : String) (robots : RobotsResult) :
    ∃ t, (checkSitemap resolve net origin robots).2 =
      Req.mk "HEAD" (origin ++ "/sitemap.xml") :: t := by
  obtain ⟨cs, hcs⟩ := sitemapCandidates_head resolve origin robots
  unfold checkSitemap
  rw [hcs]
  exact probeSitemapUrls_head net _ cs

/-- Origin of the concrete C3 run. -/
def originC3 : String := "https://site.example"

/-- Robots result whose content names a custom sitemap URL. -/
def robotsC3 : RobotsResult :=
  { exists_ := true,
    content := some "User-agent: *\nSitemap: https://site.example/custom.xml\n",
    disallowedAll := some false }

/-- URL resolver returning absolute inputs unchanged. -/
def resolveAbs : String → String → Option String := fun rel _ => some rel

/-- A plain 404 response. -/
def notFoundResponse : HttpResponse :=
  { ok := false, status := 404, contentType := none, contentLength := none,
    body := { byteLength := 0, toStr := "" }, url := "" }

/-- Network oracle answering 404 to everything. -/
def net404 : Net := fun _ => .responds notFoundResponse

/-- Index of the first occurrence of a string in a list (length if
absent). -/
def listIndexOf : List String → String → Nat
  | [], _ => 0
  | y :: t, x => if y == x then 0 else listIndexOf t x + 1

/-- C3 (counterexample): with robots.txt carrying
`Sitemap: https://site.example/custom.xml`, the probe order is
`/sitemap.xml`, `/sitemap_index.xml`, then the directive URL — the
directive URL is not probed before the well-known fallback, refuting
the claimed order. -/
theorem c3_counterexample_fallback_probed_first :
    ((checkSitemap resolveAbs net404 originC3 robotsC3).2.map Req.url) =
      ["https://site.example/sitemap.xml",
       "https://site.example/sitemap_index.xml",
       "https://site.example/custom.xml"] ∧
    ¬(listIndexOf
        ((checkSitemap resolveAbs net404 originC3 robotsC3).2.map Req.url)
        "https://site.example/custom.xml" <
      listIndexOf
        ((checkSitemap resolveAbs net404 originC3 robotsC3).2.map Req.url)
        "https://site.example/sitemap.xml") := by
  refine ⟨by decide, by decide⟩

/-! ## Remaining Check Suite members (search.js lines 231-414) -/

/-- Selector `meta[name=n]` followed by `.attr('content')` (first
match). -/
def metaNamed (d : Doc) (n : String) : Option String :=
  (d.find? fun e => e.tag == "meta" && getAttr e "name" == some n).bind
    fun e => getAttr e "content"

/-- Selector `meta[property=p]` followed by `.attr('content')`. -/
def metaProp (d : Doc) (p : String) : Option String :=
  (d.find? fun e => e.tag == "meta" && getAttr e "property" == some p).bind
    fun e => getAttr e "content"

/-- Open Graph fields with fallback to the primary title/description
and canonical URL. -/
structure OpenGraphResult where
  title : String
  description : Option String
  image : Option String
  url : Option String
deriving Repr, DecidableEq

/-- Twitter Card fields with the OG-then-primary fallback chain. -/
structure TwitterCardResult where
  card : Option String
  title : String
  description : Option String
  image : Option String
deriving Repr, DecidableEq

/-- Result of `analyzeMetaTags`. -/
structure MetaTagsResult where
  titleValue : String
  titleLength : Nat
  descriptionValue : Option String
  descriptionLength : Nat
  keywords : Option String
  viewport : Option String
  canonical : Option String
  robotsMeta : Option String
  openGraph : OpenGraphResult
  twitterCard : TwitterCardResult
deriving Repr, DecidableEq

/-- Embedding of `analyzeMetaTags` (search.js lines 231-268). The
`head > title` selector is modelled as all `title` elements of the flat
document. -/
def analyzeMetaTags (d : Doc) : MetaTagsResult :=
  let title := jsTrim (String.join ((selectTag d "title").map Elem.text))
  let description := jsTrimOrNull (metaNamed d "description")
  let keywords := jsTrimOrNull (metaNamed d "keywords")
  let viewport := jsTrimOrNull (metaNamed d "viewport")
  let canonical := jsTrimOrNull
    ((d.find? fun e => e.tag == "link" && getAttr e "rel" == some "canonical").bind
      fun e => getAttr e "href")
  let robotsMeta := jsTrimOrNull (metaNamed d "robots")
  let ogTitle := jsTrimOrNull (metaProp d "og:title")
  let ogDescription := jsTrimOrNull (metaProp d "og:description")
  let ogImage := jsTrimOrNull (metaProp d "og:image")
  let ogUrl := jsTrimOrNull (metaProp d "og:url")
  let twitterCardVal := jsTrimOrNull (metaNamed d "twitter:card")
  let twitterTitle := jsTrimOrNull (metaNamed d "twitter:title")
  let twitterDescription := jsTrimOrNull (metaNamed d "twitter:description")
  let twitterImage := jsTrimOrNull (metaNamed d "twitter:image")
  { titleValue := title
    titleLength := title.length
    descriptionValue := description
    descriptionLength :=
      match description with
      | some s => s.length
      | none => 0
    keywords := keywords
    viewport := viewport
    canonical := canonical
    robotsMeta := robotsMeta
    openGraph :=
      { title := jsOrStr ogTitle title
        description := jsOrOpt ogDescription description
        image := ogImage
        url := jsOrOpt ogUrl canonical }
    twitterCard :=
      { card := twitterCardVal
        title := jsOrStr twitterTitle (jsOrStr ogTitle title)
        description := jsOrOpt twitterDescription
          (jsOrOpt ogDescription description)
        image := jsOrOpt twitterImage ogImage } }

/-- Result of `analyzeHeadings`. -/
structure HeadingsResult where
  headingStructure : List (String × List String)
  total : Nat
  h1Count : Nat
  h1Content : List String
deriving Repr, DecidableEq

/-- Trimmed, non-empty texts of the headings of one level. -/
def headingTexts (d : Doc) (tag : String) : List String :=
  ((selectTag d tag).map fun e => jsTrim e.text).filter fun t => !t.isEmpty

/-- Embedding of `analyzeHeadings` (search.js lines 270-294). -/
def analyzeHeadings (d : Doc) : HeadingsResult :=
  let levels := ["h1", "h2", "h3", "h4", "h5", "h6"]
  let hs := levels.map fun t => (t, headingTexts d t)
  { headingStructure := hs
    total := (hs.map fun p => p.2.length).sum
    h1Count := (headingTexts d "h1").length
    h1Content := headingTexts d "h1" }

/-- Tags stripped by `analyzeContent` before measuring text. -/
def REMOVED_TAGS : List String :=
  ["script", "style", "noscript", "svg", "header", "footer", "nav",
   "aside", "form", "button", "input", "select", "textarea"]

/-- Result of `analyzeContent`. -/
structure ContentResult where
  wordCount : Nat
  textHtmlRatio : ℚ
deriving Repr, DecidableEq

/-- Non-empty tokens of `s.split(/\s+/).filter(Boolean)`. -/
def wsTokensAux : List Char → List Char → List String
  | [], acc => if acc.isEmpty then [] else [String.mk acc.reverse]
  | c :: cs, acc =>
    if isWsChar c then
      (if acc.isEmpty then [] else [String.mk acc.reverse]) ++ wsTokensAux cs []
    else wsTokensAux cs (c :: acc)

/-- Whitespace-separated tokens of a string. -/
def wsTokens (s : String) : List String := wsTokensAux s.data []

/-- Embedding of `analyzeContent` (search.js lines 352-373).  The
source calls `.remove()` on the shared cheerio document, a MUTATION of
the tree every later consumer observes; the embedding returns the
document remaining after the removal alongside the result, and the
orchestrator threads it onward.  The body text of the flat model is the
concatenation of the texts of the remaining elements; `toFixed(2)`
rounding of the ratio is not modelled (the ratio is kept exact). -/
def analyzeContent (d : Doc) (html : String) : ContentResult × Doc :=
  let d2 := d.filter fun e => !(REMOVED_TAGS.contains e.tag)
  let bodyText := String.join (d2.map Elem.text)
  let tokens := wsTokens bodyText
  let cleanText := String.intercalate " " tokens
  let htmlLength := html.utf8ByteSize
  let textLength := cleanText.utf8ByteSize
  let ratio : ℚ :=
    if 0 < htmlLength then (textLength : ℚ) * 100 / (htmlLength : ℚ) else 0
  ({ wordCount := tokens.length, textHtmlRatio := ratio }, d2)

/-- Result of `checkHttps`. -/
structure HttpsResult where
  usesHttps : Bool
  finalUrl : String
  error : Option String := none
deriving Repr, DecidableEq

/-- Embedding of `checkHttps` (search.js lines 375-384): `protocolOf`
is the host `new URL(u).protocol`, `none` when the constructor
throws. -/
def checkHttps (protocolOf : String → Option String)
    (finalUrl : String) : HttpsResult :=
  match protocolOf finalUrl with
  | some p => { usesHttps := p == "https:", finalUrl := finalUrl }
  | none =>
    { usesHttps := false, finalUrl := finalUrl,
      error := some "Invalid final URL" }

/-- Result of `checkMobileFriendliness`. -/
structure MobileResult where
  hasViewportMeta : Bool
  viewportContent : Option String
  hasWidthDeviceWidth : Bool
  hasInitialScale : Bool
  usesFlash : Bool
deriving Repr, DecidableEq

/-- Embedding of `checkMobileFriendliness` (search.js lines 386-414). -/
def checkMobileFriendliness (d : Doc) : MobileResult :=
  let viewport := metaNamed d "viewport"
  let hasViewport := (truthyStr viewport).isSome
  let hasWidthDeviceWidth :=
    match truthyStr viewport with
    | some v => containsSubstr v "width=device-width"
    | none => false
  let hasInitialScale :=
    match truthyStr viewport with
    | some v => containsSubstr v "initial-scale=1"
    | none => false
  let hasFlash := d.any fun e =>
    (e.tag == "object" || e.tag == "embed") &&
      (match getAttr e "type" with
       | some t => containsSubstr t "shockwave-flash"
       | none => false)
  { hasViewportMeta := hasViewport
    viewportContent := truthyStr viewport
    hasWidthDeviceWidth := hasWidthDeviceWidth
    hasInitialScale := hasInitialScale
    usesFlash := hasFlash }

/-- Placeholder performance check result. -/
structure PerformanceResult where
  status : String
  score : Option Nat
deriving Repr, DecidableEq

/-! ## Orchestrator (`performSeoAnalysis`, search.js lines 458-569) -/

/-- Host library oracles: the HTML parser (`cheerio.load`), the WHATWG
URL operations (`new URL` validity, `.origin`, `.protocol`, relative
resolution `new URL(rel, base)`), and `JSON.parse` producing values of
type `J`. -/
structure Host (J : Type) where
  parseHtml : String → Doc
  urlValid : String → Bool
  origin : String → String
  protocolOf : String → Option String
  resolve : String → String → Option String
  jsonParse : String → Option J

/-- The `checks` map of the assembled report, keyed as in the source. -/
structure ChecksMap (J : Type) where
  https : HttpsResult
  robotsTxt : RobotsResult
  sitemap : SitemapResult
  metaTags : MetaTagsResult
  headings : HeadingsResult
  images : ImagesResult
  content : ContentResult
  mobileFriendly : MobileResult
  schemaMarkup : SchemaResult J
  performance : PerformanceResult
deriving Repr, DecidableEq

/-- The assembled report value. `analysisTimeMs` is wall-clock time,
not modelled (kept 0); `overallScore` and `aiSuggestions` are the
source's placeholders. -/
structure AnalysisReport (J : Type) where
  url : String
  finalUrl : String
  status : Nat
  analysisTimeMs : Nat
  overallScore : Option Nat
  checks : ChecksMap J
  aiSuggestions : String
deriving Repr, DecidableEq

/-- The four return shapes of `performSeoAnalysis`: the pre-fetch
invalid-URL object, the fetch-error object, the catch-all object of the
analysis phase (top-level `error`, no `checks`), and the full report. -/
inductive AnalysisOutcome (J : Type) where
  | invalid (url : String) (error : String) (status : Nat)
  | fetchFailed (url : String) (finalUrl : Option String) (error : String)
      (status : Nat)
  | analysisError (url : String) (finalUrl : String) (status : Nat)
      (error : String)
  | report (r : AnalysisReport J)
deriving Repr, DecidableEq

/-- Embedding of `performSeoAnalysis`.  The `Promise.all` fan-out is
linearised in the evaluation order of the array literal: the robots
slot, then the sitemap slot — which calls `checkRobotsTxt` a second
time (search.js line 509, "Re-check or pass previous result") and feeds
that second result to `checkSitemap` — then the synchronous checks in
order, with `analyzeContent` mutating the shared document before
`checkMobileFriendliness` and `checkSchemaMarkup` read it.  A thrown
exception inside the analysis phase (the only possible source is the
host environment; every embedded check is total) is modelled by the
`hostFault` oracle: `some m` reproduces the catch branch of lines
559-568.  The second component is the list of network requests
issued. -/
def performSeoAnalysis {J : Type} (host : Host J) (net : Net)
    (hostFault : Option String) (url : String) :
    AnalysisOutcome J × List Req :=
  let initialUrl := ensureProtocol url
  if !(host.urlValid initialUrl) then
    (.invalid url "Invalid URL format provided." 400, [])
  else
    let pageReq : Req := ⟨"GET", ensureProtocol initialUrl⟩
    match fetchAndParseUrl host.parseHtml net initialUrl with
    | .failure err st => (.fetchFailed url none err st, [pageReq])
    | .success html doc finalUrl st =>
      let origin := host.origin finalUrl
      let robotsRun := checkRobotsTxt net origin
      let robotsRerun := checkRobotsTxt net origin
      let sitemapRun := checkSitemap host.resolve net origin robotsRerun.1
      let httpsAnalysis := checkHttps host.protocolOf finalUrl
      let metaTagsAnalysis := analyzeMetaTags doc
      let headingsAnalysis := analyzeHeadings doc
      let imagesAnalysis := analyzeImages doc
      let contentRun := analyzeContent doc html
      let mobileAnalysis := checkMobileFriendliness contentRun.2
      let schemaAnalysis := checkSchemaMarkup host.jsonParse contentRun.2
      let requests := pageReq :: (robotsRun.2 ++ robotsRerun.2 ++ sitemapRun.2)
      match hostFault with
      | some m =>
        (.analysisError url finalUrl st
          ("Analysis failed after fetching content: " ++ m), requests)
      | none =>
        (.report
          { url := url
            finalUrl := finalUrl
            status := st
            analysisTimeMs := 0
            overallScore := none
            checks :=
              { https := httpsAnalysis
                robotsTxt := robotsRun.1
                sitemap := sitemapRun.1
                metaTags := metaTagsAnalysis
                headings := headingsAnalysis
                images := imagesAnalysis
                content := contentRun.1
                mobileFriendly := mobileAnalysis
                schemaMarkup := schemaAnalysis
                performance := { status := "pending_integration", score := none } }
            aiSuggestions := "pending_integration" }, requests)

/-- The `error` field of an analysis outcome (`analysisResult.error`). -/
def outcomeError {J : Type} : AnalysisOutcome J → Option String
  | .invalid _ e _ => some e
  | .fetchFailed _ _ e _ => some e
  | .analysisError _ _ _ e => some e
  | .report _ => none

/-- The `status` field of the error-shaped outcomes. -/
def outcomeStatus {J : Type} : AnalysisOutcome J → Option Nat
  | .invalid _ _ st => some st
  | .fetchFailed _ _ _ st => some st
  | .analysisError _ _ st _ => some st
  | .report _ => none

/-- The report, when the outcome carries one. -/
def reportOf {J : Type} : AnalysisOutcome J → Option (AnalysisReport J)
  | .report r => some r
  | _ => none

/-- JS truthiness of `analysisResult.checks`. -/
def outcomeHasChecks {J : Type} (o : AnalysisOutcome J) : Bool :=
  (reportOf o).isSome

/-! ## Router and Report model (`router.post('/analyze')`, search.js
lines 574-664; `Report.js` lines 128-188) -/

/-- Admissible `analysisStatus` values of the Report schema
(`Report.js` line 153). -/
def reportAnalysisStatusEnum : List String :=
  ["pending", "processing", "completed", "failed"]

/-- Top-level paths defined by the Report schema (`Report.js` lines
128-188). -/
def reportSchemaTopLevelPaths : List String :=
  ["userId", "url", "finalUrl", "fetchStatus", "analysisStatus",
   "analysisTimeMs", "overallScore", "checks", "aiSuggestions",
   "errorMessage"]

/-- Response of the analyze endpoint after `performSeoAnalysis`
returns: either the early error JSON, or a saved report carrying the
value the router computes for its `status` key. -/
inductive RouterResponse where
  | errorJson (status : Nat) (error : String)
  | savedReport (statusValue : String)
deriving Repr, DecidableEq

/-- Embedding of the post-analysis part of the `/analyze` handler
(search.js lines 626-647): an outcome with a truthy `error` and no
`checks` is returned as an error response with `analysisResult.status
|| 500`; otherwise a Report is built whose `status` key is
`analysisResult.error ? 'completed_with_errors' : 'completed'`. -/
def routerHandleAnalysisResult {J : Type} (o : AnalysisOutcome J) :
    RouterResponse :=
  if (outcomeError o).isSome && !(outcomeHasChecks o) then
    .errorJson ((outcomeStatus o).getD 500) ((outcomeError o).getD "")
  else
    .savedReport
      (if (outcomeError o).isSome then "completed_with_errors"
       else "completed")

/-! ## Concrete runs of the orchestrator -/

/-- Page document with one JSON-LD script block and one paragraph. -/
def docWithJsonLd : Doc :=
  [ { tag := "script", attrs := [("type", "application/ld+json")],
      inner := some "ok" },
    { tag := "p", attrs := [], text := "hello world" } ]

/-- Successful page response for `http://example.com`. -/
def pageResponseA : HttpResponse :=
  { ok := true, status := 200, contentType := some "text/html",
    contentLength := none,
    body := { byteLength := 1, toStr := "x" },
    url := "http://example.com/" }

/-- Host oracles for the concrete runs: every URL is valid, the origin
is `http://example.com`, and JSON parsing is the demo oracle. -/
def hostA : Host Unit :=
  { parseHtml := fun _ => docWithJsonLd
    urlValid := fun _ => true
    origin := fun _ => "http://example.com"
    protocolOf := fun _ => some "http:"
    resolve := fun rel _ => some rel
    jsonParse := parseDemo }

/-- Network oracle: the page fetch succeeds, everything else is 404. -/
def netA : Net := fun q =>
  if q.url == "http://example.com" then .responds pageResponseA
  else .responds notFoundResponse

/-- C1 (code bug): on a page carrying a JSON-LD block, the full check
suite does not leave the shared parsed document unchanged —
`analyzeContent` removes the script elements from the shared tree, so
the schema-markup check, which runs after it in the fan-out, reports
zero JSON-LD blocks, although the same check on the original document
reports one. -/
theorem c1_shared_document_mutated :
    ((reportOf (performSeoAnalysis hostA netA none "http://example.com").1).map
        fun r => r.checks.schemaMarkup.jsonLdCount) = some 0 ∧
    (checkSchemaMarkup hostA.jsonParse docWithJsonLd).jsonLdCount = 1 ∧
    (analyzeContent docWithJsonLd "x").2 ≠ docWithJsonLd := by
  refine ⟨by decide, by decide, by decide⟩

/-- Number of GET requests for `{origin}/robots.txt` in a request
log. -/
def robotsFetchCount (log : List Req) (origin : String) : Nat :=
  (log.filter fun q =>
    q.method == "GET" && q.url == origin ++ "/robots.txt").length

/-- C2 (code bug): in an analysis whose page fetch succeeds, robots.txt
is fetched twice, not once — once by the robots slot of the fan-out and
a second time inside the sitemap slot, which consumes the second result
(search.js lines 506-510). -/
theorem c2_robots_fetched_twice :
    robotsFetchCount
      (performSeoAnalysis hostA netA none "http://example.com").2
      "http://example.com" = 2 := by
  decide

/-- C4 (counterexample): a failure thrown inside the analysis phase
after a successful fetch is caught by the single surrounding handler:
the result is the catch-all error object with no checks at all, not a
per-check error-carrying result. -/
theorem c4_counterexample_fault_discards_all_checks :
    (performSeoAnalysis hostA netA (some "boom") "http://example.com").1 =
      .analysisError "http://example.com" "http://example.com/" 200
        "Analysis failed after fetching content: boom" ∧
    outcomeHasChecks
      (performSeoAnalysis hostA netA (some "boom") "http://example.com").1 =
      false := by
  refine ⟨by decide, by decide⟩

/-- C4 (amended): whenever the page fetch succeeds and a failure arises
inside the analysis phase, the orchestrator's one try/catch around the
whole `Promise.all` returns the catch-all object — a top-level error
and an empty checks set — instead of recovering the failure into that
check's own CheckResult. -/
theorem c4_amended_single_failure_aborts_analysis {J : Type}
    (host : Host J) (net : Net) (url m html : String) (doc : Doc)
    (finalUrl : String) (st : Nat)
    (hvalid : host.urlValid (ensureProtocol url) = true)
    (hfetch : fetchAndParseUrl host.parseHtml net (ensureProtocol url) =
      .success html doc finalUrl st) :
    (performSeoAnalysis host net (some m) url).1 =
      .analysisError url finalUrl st
        ("Analysis failed after fetching content: " ++ m) ∧
    outcomeHasChecks (performSeoAnalysis host net (some m) url).1 =
      false := by
  constructor
  · simp [performSeoAnalysis, hvalid, hfetch]
  · simp [performSeoAnalysis, hvalid, hfetch, outcomeHasChecks, reportOf]

/-- Witness for the amended C4 at the concrete run. -/
theorem c4_amended_witness :
    (performSeoAnalysis hostA netA (some "boom") "http://example.com").1 =
      .analysisError "http://example.com" "http://example.com/" 200
        ("Analysis failed after fetching content: " ++ "boom") ∧
    outcomeHasChecks
      (performSeoAnalysis hostA netA (some "boom") "http://example.com").1 =
      false :=
  c4_amended_single_failure_aborts_analysis hostA netA "http://example.com"
    "boom" "x" docWithJsonLd "http://example.com/" 200 (by decide) (by decide)

/-- A plain 500 response. -/
def serverErrorResponse : HttpResponse :=
  { ok := false, status := 500, contentType := none, contentLength := none,
    body := { byteLength := 0, toStr := "" }, url := "" }

/-- Network oracle: the page fetch succeeds, robots.txt answers 500,
everything else 404. -/
def netB : Net := fun q =>
  if q.url == "http://example.com" then .responds pageResponseA
  else if q.url == "http://example.com/robots.txt" then
    .responds serverErrorResponse
  else .responds notFoundResponse

/-- C5 (counterexample): an analysis whose robots CheckResult carries
an error is still saved with the computed status `completed`, because
the router's conditional looks only at the top-level `error` — and
`completed_with_errors` is not even among the Report schema's
admissible `analysisStatus` values. -/
theorem c5_counterexample_percheck_error_still_completed :
    ((reportOf (performSeoAnalysis hostA netB none "http://example.com").1).map
        fun r => r.checks.robotsTxt.error) =
      some (some "robots.txt check failed with status: 500") ∧
    routerHandleAnalysisResult
      (performSeoAnalysis hostA netB none "http://example.com").1 =
      .savedReport "completed" ∧
    "completed_with_errors" ∉ reportAnalysisStatusEnum := by
  refine ⟨by decide, by decide, by decide⟩

/-- C5 (amended): every analysis result that reaches the save path is
stored with the computed value `completed` — `completed_with_errors`
would require a top-level error, and any outcome with a top-level error
has no checks and is returned early as an error response; moreover the
router writes the value under the key `status`, which the Report schema
does not define, and the schema's `analysisStatus` enum is `{pending,
processing, completed, failed}`, without `completed_with_errors`. -/
theorem c5_amended_saved_status_always_completed {J : Type}
    (o : AnalysisOutcome J) (s : String)
    (h : routerHandleAnalysisResult o = .savedReport s) :
    s = "completed" ∧
    "completed_with_errors" ∉ reportAnalysisStatusEnum ∧
    "completed" ∈ reportAnalysisStatusEnum ∧
    "status" ∉ reportSchemaTopLevelPaths ∧
    "analysisStatus" ∈ reportSchemaTopLevelPaths := by
  refine ⟨?_, by decide, by decide, by decide, by decide⟩
  cases o with
  | invalid u e st =>
    simp [routerHandleAnalysisResult, outcomeError, outcomeHasChecks,
      reportOf] at h
  | fetchFailed u f e st =>
    simp [routerHandleAnalysisResult, outcomeError, outcomeHasChecks,
      reportOf] at h
  | analysisError u f st e =>
    simp [routerHandleAnalysisResult, outcomeError, outcomeHasChecks,
      reportOf] at h
  | report r =>
    simp [routerHandleAnalysisResult, outcomeError, outcomeHasChecks,
      reportOf] at h
    exact h.symm

/-- Witness for the amended C5 at the concrete successful run. -/
theorem c5_amended_witness :
    ("completed" : String) = "completed" ∧
    "completed_with_errors" ∉ reportAnalysisStatusEnum ∧
    "completed" ∈ reportAnalysisStatusEnum ∧
    "status" ∉ reportSchemaTopLevelPaths ∧
    "analysisStatus" ∈ reportSchemaTopLevelPaths :=
  c5_amended_saved_status_always_completed
    (performSeoAnalysis hostA netA none "http://example.com").1
    "completed" (by decide)

/-- C7: any input lacking the `http://` and `https://` prefixes (in
particular any input lacking a scheme) is normalized by prepending
`http://`, and when the normalized string is not a valid URL the
analysis returns the invalid-URL outcome with an empty request log —
no network call is made. -/
theorem c7_normalize_and_invalid_url {J : Type} (host : Host J)
    (net : Net) (hostFault : Option String) (url : String)
    (h1 : jsStartsWith url "http://" = false)
    (h2 : jsStartsWith url "https://" = false) :
    ensureProtocol url = "http://" ++ url ∧
    (host.urlValid (ensureProtocol url) = false →
      performSeoAnalysis host net hostFault url =
        (.invalid url "Invalid URL format provided." 400, [])) := by
  constructor
  · unfold ensureProtocol
    simp [h1, h2]
  · intro hv
    simp [performSeoAnalysis, hv]

/-- Host oracles whose URL parser rejects everything. -/
def hostReject : Host Unit :=
  { parseHtml := fun _ => []
    urlValid := fun _ => false
    origin := fun _ => ""
    protocolOf := fun _ => none
    resolve := fun _ _ => none
    jsonParse := fun _ => none }

/-- Witness for C7: `normalize("example.com") = "http://example.com"`,
and with a rejecting URL parser the analysis is the invalid-URL outcome
with no requests. -/
theorem c7_normalize_and_invalid_url_witness :
    ensureProtocol "example.com" = "http://example.com" ∧
    performSeoAnalysis hostReject net404 none "example.com" =
      (.invalid "example.com" "Invalid URL format provided." 400, []) := by
  have h := c7_normalize_and_invalid_url hostReject net404 none
    "example.com" (by decide) (by decide)
  exact ⟨h.1, h.2 rfl⟩

end Seo
